import Mathlib

/-!
Shallow embedding of the Scheduling & Matching Engine (src/run.py) and
verification of its specification claims.

Conventions of the embedding:
* Python `datetime` values are embedded as `Int` (only their total order,
  `max` and `min` matter to the code under verification).
* ISO timestamp parsing (`datetime.fromisoformat`) and formatting
  (`isoformat`) are library calls external to the repository; they are
  passed as parameters `parse : String → Option Int` (failure = raised
  exception) and `fmt : Int → String`.
* The external HTTP lookup (`requests.get`) is passed as an oracle
  `Nat → AttemptResult` giving the outcome of each attempt.
* Python dicts keyed by strings are embedded as association lists with
  first-match lookup and in-place update.
* Python truthiness of an optional string (`if not x:`) is `none` or `""`.
-/

namespace Run

/-- Embeds the time-slot dictionaries `{"start": ..., "end": ...}` used for
availability slots, preferred slots and chosen slots. -/
structure TimeSlot where
  start : String
  «end» : String
deriving DecidableEq, Repr

/-- Embeds a technician record of `TECHNICIANS_DATA`. -/
structure Technician where
  id : String
  name : String
  skills : List String
  appliances_supported : List String
  regions : List String
  availability_slots : List TimeSlot
deriving DecidableEq, Repr

/-- Embeds an entry of `REGIONS_CACHE`. -/
structure RegionEntry where
  pincode_prefix : String
  region_label : String
deriving DecidableEq, Repr

/-- The static technician catalog `TECHNICIANS_DATA` of src/run.py. -/
def TECHNICIANS_DATA : List Technician := [
  { id := "tech_01", name := "Asha K",
    skills := ["wm_vibration", "ac_leak"],
    appliances_supported := ["WashingMachine", "AC"],
    regions := ["Bengaluru Urban", "Central"],
    availability_slots := [
      ⟨"2025-09-20T10:00:00+05:30", "2025-09-20T12:00:00+05:30"⟩,
      ⟨"2025-09-20T15:00:00+05:30", "2025-09-20T16:00:00+05:30"⟩] },
  { id := "tech_02", name := "Ravi S",
    skills := ["fridge_cooling", "tv_display"],
    appliances_supported := ["Refrigerator", "TV"],
    regions := ["Mumbai Suburban", "Central"],
    availability_slots := [
      ⟨"2025-09-21T09:00:00+05:30", "2025-09-21T11:00:00+05:30"⟩,
      ⟨"2025-09-21T14:00:00+05:30", "2025-09-21T16:00:00+05:30"⟩] },
  { id := "tech_03", name := "Priya M",
    skills := ["ac_airflow", "waterpurifier_filter"],
    appliances_supported := ["AC", "WaterPurifier"],
    regions := ["Bengaluru Urban", "West"],
    availability_slots := [
      ⟨"2025-09-22T10:30:00+05:30", "2025-09-22T12:30:00+05:30"⟩,
      ⟨"2025-09-22T15:30:00+05:30", "2025-09-22T17:00:00+05:30"⟩] },
  { id := "tech_04", name := "Anil P",
    skills := ["wm_drum", "ac_cooling"],
    appliances_supported := ["WashingMachine", "AC"],
    regions := ["West", "Mumbai Suburban"],
    availability_slots := [
      ⟨"2025-09-23T09:00:00+05:30", "2025-09-23T11:00:00+05:30"⟩,
      ⟨"2025-09-23T13:00:00+05:30", "2025-09-23T15:00:00+05:30"⟩] },
  { id := "tech_05", name := "Neha R",
    skills := ["fridge_temp", "tv_sound"],
    appliances_supported := ["Refrigerator", "TV"],
    regions := ["Central", "Bengaluru Urban"],
    availability_slots := [
      ⟨"2025-09-24T10:00:00+05:30", "2025-09-24T12:00:00+05:30"⟩,
      ⟨"2025-09-24T15:00:00+05:30", "2025-09-24T16:30:00+05:30"⟩] },
  { id := "tech_06", name := "Kiran V",
    skills := ["waterpurifier_flow", "ac_noise", "wm_motor"],
    appliances_supported := ["WaterPurifier", "AC", "WashingMachine"],
    regions := ["West", "Mumbai Suburban"],
    availability_slots := [
      ⟨"2025-09-25T09:30:00+05:30", "2025-09-25T11:30:00+05:30"⟩,
      ⟨"2025-09-25T14:30:00+05:30", "2025-09-25T16:30:00+05:30"⟩] }
]

/-- The static fallback table `REGIONS_CACHE` of src/run.py. -/
def REGIONS_CACHE : List RegionEntry := [
  ⟨"5600xx", "Bengaluru Urban"⟩,
  ⟨"4000xx", "Mumbai Suburban"⟩,
  ⟨"1100xx", "Delhi"⟩
]

/-- Structural prefix test on character lists. -/
def listIsPrefix : List Char → List Char → Bool
  | [], _ => true
  | _ :: _, [] => false
  | c :: cs, d :: ds => c == d && listIsPrefix cs ds

/-- Structural infix test on character lists: `needle` occurs contiguously
inside `hay`. -/
def listIsInfix (needle : List Char) : List Char → Bool
  | [] => needle.isEmpty
  | d :: rest => listIsPrefix needle (d :: rest) || listIsInfix needle rest

/-- Python substring containment `needle in hay` on strings. -/
def strContains (hay needle : String) : Bool :=
  listIsInfix needle.data hay.data

/-- Python `str.lower()` on one character (ASCII model). -/
def pyLowerChar (c : Char) : Char :=
  if 'A' ≤ c && c ≤ 'Z' then Char.ofNat (c.toNat + 32) else c

/-- Python `str.lower()` (ASCII model). -/
def strLower (s : String) : String :=
  String.mk (s.data.map pyLowerChar)

/-- A whitespace character stripped by Python `str.strip()` (ASCII model). -/
def isPyWs (c : Char) : Bool :=
  c == ' ' || c == '\t' || c == '\n' || c == '\r'

/-- Python `str.strip()` (ASCII model): drop leading and trailing
whitespace. -/
def pyStrip (s : String) : String :=
  String.mk (((s.data.dropWhile isPyWs).reverse.dropWhile isPyWs).reverse)

/-- One place record of the external lookup service response
(`places[0].get("state", "")` / `places[0].get("place name", "")`). -/
structure Place where
  state : String
  place_name : String
deriving DecidableEq, Repr

/-- Outcome of one `requests.get` attempt inside `lookup_region`:
a raised `requests.RequestException`, a non-200 status, or a 200 status
whose JSON body carries the given list of place records. -/
inductive AttemptResult where
  | exn : AttemptResult
  | non200 : AttemptResult
  | ok : List Place → AttemptResult
deriving DecidableEq, Repr

/-- An attempt that yields no place record: exception, non-200 status, or a
200 response with an empty `places` list. Such attempts fall through to the
next retry in `lookup_region`. -/
def attemptFails : AttemptResult → Prop
  | .ok places => places = []
  | _ => True

/-- The body of the success branch of `lookup_region` (src/run.py lines
185-194): strip the first record's state and place name, scan
`REGIONS_CACHE` for a label contained (case-insensitively) in the state or
the place name, and otherwise fall back to
`state or place_name or "Unknown"`. -/
def successLabel (p : Place) : String :=
  let state := pyStrip p.state
  let place_name := pyStrip p.place_name
  match REGIONS_CACHE.find? (fun r =>
      strContains (strLower state) (strLower r.region_label) ||
      strContains (strLower place_name) (strLower r.region_label)) with
  | some r => r.region_label
  | none =>
    if state ≠ "" then state
    else if place_name ≠ "" then place_name
    else "Unknown"

/-- The guard of the success branch: the label is produced only when the
`places` list is non-empty; on an empty list the Python code falls through
and consumes a retry. -/
def regionFromPlaces (places : List Place) : Option String :=
  match places with
  | [] => none
  | p :: _ => some (successLabel p)

/-- The retry loop of `lookup_region` (`while attempts <= retries`), with
`remaining` the number of iterations still allowed. Returns `some label`
when an attempt returns from inside the loop, `none` when the loop exhausts
its budget. -/
def lookupAttempts (oracle : Nat → AttemptResult) (attempt : Nat) :
    Nat → Option String
  | 0 => none
  | remaining + 1 =>
    match oracle attempt with
    | .ok places =>
      match regionFromPlaces places with
      | some s => some s
      | none => lookupAttempts oracle (attempt + 1) remaining
    | _ => lookupAttempts oracle (attempt + 1) remaining

/-- The static-table fallback of `lookup_region` (src/run.py lines 202-206):
first cached entry whose 4-character prefix is a prefix of the pincode,
else the sentinel `"Unknown"`. -/
def static_fallback (pincode : String) : String :=
  match REGIONS_CACHE.find? (fun r =>
      listIsPrefix (r.pincode_prefix.data.take 4) pincode.data) with
  | some r => r.region_label
  | none => "Unknown"

/-- Embeds `lookup_region` (src/run.py lines 175-206). The external HTTP
layer is the `oracle`; `retries` defaults to 2 as in the source, so the
loop runs at most `retries + 1` attempts. -/
def lookup_region (oracle : Nat → AttemptResult) (pincode : String)
    (retries : Nat := 2) : String :=
  match lookupAttempts oracle 0 (retries + 1) with
  | some s => s
  | none => static_fallback pincode

/-- Python truthiness of a possibly-missing string payload field
(`if required_skill:` and similar): truthy iff present and non-empty. -/
def strTruthy : Option String → Bool
  | none => false
  | some s => s ≠ ""

/-- The body of the `find_technicians_for` loop: append `tech` to the
accumulated matches when it supports the appliance, serves the region, and
— when `required_skill` is truthy — has the skill. -/
def matcherStep (appliance : String) (required_skill : Option String)
    (region_label : String) (ms : List Technician) (tech : Technician) :
    List Technician :=
  if appliance ∈ tech.appliances_supported then
    if region_label ∈ tech.regions then
      if strTruthy required_skill then
        if required_skill.getD "" ∈ tech.skills then ms ++ [tech]
        else ms
      else ms ++ [tech]
    else ms
  else ms

/-- Embeds `find_technicians_for` (src/run.py lines 211-221): the loop over
`TECHNICIANS_DATA` appending each qualifying technician. -/
def find_technicians_for (appliance : String) (required_skill : Option String)
    (region_label : String) : List Technician :=
  TECHNICIANS_DATA.foldl (matcherStep appliance required_skill region_label)
    []

/-- Embeds `overlap_slot` (src/run.py lines 165-170), with datetimes as
integers. -/
def overlap_slot (pref_start pref_end tech_start tech_end : Int) :
    Option (Int × Int) :=
  let latest_start := max pref_start tech_start
  let earliest_end := min pref_end tech_end
  if latest_start < earliest_end then some (latest_start, earliest_end)
  else none

/-- A proposal dictionary `{"start", "end", "technician_id"}` emitted by
`propose_slots`. -/
structure Proposal where
  start : String
  «end» : String
  technician_id : String
deriving DecidableEq, Repr

/-- Inner loop of `propose_slots` over the technician's availability slots
for one parsed preferred interval. Returns the grown accumulator and whether
the Python code returned early (`len(proposals) >= max_proposals` right
after an append). Slots whose timestamps fail to parse are skipped. -/
def proposeInner (parse : String → Option Int) (fmt : Int → String)
    (tech_id : String) (pref_start pref_end : Int) (tslots : List TimeSlot)
    (proposals : List Proposal) (max_proposals : Nat) :
    List Proposal × Bool :=
  match tslots with
  | [] => (proposals, false)
  | ts :: rest =>
    match parse ts.start, parse ts.«end» with
    | some tech_start, some tech_end =>
      match overlap_slot pref_start pref_end tech_start tech_end with
      | some ov =>
        if max_proposals ≤
            (proposals ++ [(⟨fmt ov.1, fmt ov.2, tech_id⟩ : Proposal)]).length
        then (proposals ++ [(⟨fmt ov.1, fmt ov.2, tech_id⟩ : Proposal)], true)
        else proposeInner parse fmt tech_id pref_start pref_end rest
          (proposals ++ [(⟨fmt ov.1, fmt ov.2, tech_id⟩ : Proposal)])
          max_proposals
      | none => proposeInner parse fmt tech_id pref_start pref_end rest
          proposals max_proposals
    | _, _ => proposeInner parse fmt tech_id pref_start pref_end rest
        proposals max_proposals

/-- Outer loop of `propose_slots` over the customer's preferred slots.
Preferred slots whose timestamps fail to parse are skipped (`except:
continue`). -/
def proposeOuter (parse : String → Option Int) (fmt : Int → String)
    (tech_id : String) (prefs : List TimeSlot) (tslots : List TimeSlot)
    (proposals : List Proposal) (max_proposals : Nat) :
    List Proposal × Bool :=
  match prefs with
  | [] => (proposals, false)
  | pref :: rest =>
    match parse pref.start, parse pref.«end» with
    | some pref_start, some pref_end =>
      match proposeInner parse fmt tech_id pref_start pref_end tslots
          proposals max_proposals with
      | (proposals, true) => (proposals, true)
      | (proposals, false) =>
        proposeOuter parse fmt tech_id rest tslots proposals max_proposals
    | _, _ => proposeOuter parse fmt tech_id rest tslots proposals
        max_proposals

/-- The trailing loop of `propose_slots` (src/run.py lines 244-247): append
the technician's availability slots verbatim, breaking once
`len(proposals) >= max_proposals`. In the source this loop runs whenever
the overlap loops did not return early — its guard is reaching the end of
the overlap loops, not `proposals` being empty. -/
def proposeFallback (tech_id : String) (tslots : List TimeSlot)
    (proposals : List Proposal) (max_proposals : Nat) : List Proposal :=
  match tslots with
  | [] => proposals
  | ts :: rest =>
    if max_proposals ≤
        (proposals ++ [(⟨ts.start, ts.«end», tech_id⟩ : Proposal)]).length
    then proposals ++ [(⟨ts.start, ts.«end», tech_id⟩ : Proposal)]
    else proposeFallback tech_id rest
      (proposals ++ [(⟨ts.start, ts.«end», tech_id⟩ : Proposal)])
      max_proposals

/-- Embeds `propose_slots` (src/run.py lines 223-248). `parse` stands for
`parse_iso` (`datetime.fromisoformat`, `none` = raised exception) and `fmt`
for `datetime.isoformat`. -/
def propose_slots (parse : String → Option Int) (fmt : Int → String)
    (tech : Technician) (customer_pref_slots : List TimeSlot)
    (max_proposals : Nat := 2) : List Proposal :=
  match proposeOuter parse fmt tech.id customer_pref_slots
      tech.availability_slots [] max_proposals with
  | (proposals, true) => proposals
  | (proposals, false) =>
    proposeFallback tech.id tech.availability_slots proposals max_proposals

/-- Embeds `validate_phone` (src/run.py lines 140-141): strip all non-digit
characters (`re.sub(r"\D", "", phone)`), then require a full match of
`^[6-9]\d{9}$` — first digit between 6 and 9 followed by nine more digits. -/
def validate_phone (phone : String) : Bool :=
  match phone.data.filter Char.isDigit with
  | c :: rest => ('6' ≤ c && c ≤ '9') && rest.length == 9 &&
      rest.all Char.isDigit
  | [] => false

/-- A `\w` character of the email regex (ASCII word character). -/
def isWordChar (c : Char) : Bool :=
  c.isAlphanum || c == '_'

/-- A `[\w\.-]` character of the email regex. -/
def isAtomChar (c : Char) : Bool :=
  isWordChar c || c == '.' || c == '-'

/-- Split a character list at every occurrence of `sep` (like Python
`str.split(sep)` for a single-character separator). -/
def splitOnChar (sep : Char) : List Char → List (List Char)
  | [] => [[]]
  | c :: rest =>
    if c == sep then [] :: splitOnChar sep rest
    else
      match splitOnChar sep rest with
      | g :: gs => (c :: g) :: gs
      | [] => [[c]]

/-- Rejoin groups with a dot separator (inverse of splitting on dots). -/
def joinWithDot : List (List Char) → List Char
  | [] => []
  | [g] => g
  | g :: gs => g ++ '.' :: joinWithDot gs

/-- Embeds `validate_email` (src/run.py lines 143-144): full match of
`^[\w\.-]+@[\w\.-]+\.\w{2,}$` on the stripped email. The regex matches iff
the string splits at a single `@` into a non-empty run of `[\w.-]`
characters and a domain that splits at its last dot into a non-empty
`[\w.-]` prefix and a word-character suffix of length at least 2 (any
earlier dot cannot serve as the regex's `\.` because the trailing `\w{2,}`
admits no dot after it). -/
def validate_email (email : String) : Bool :=
  let s := (pyStrip email).data
  match splitOnChar '@' s with
  | [localPart, domain] =>
    !localPart.isEmpty && localPart.all isAtomChar &&
    (match (splitOnChar '.' domain).reverse with
     | tld :: restRev =>
       let beforeLastDot := joinWithDot restRev.reverse
       !beforeLastDot.isEmpty && beforeLastDot.all isAtomChar &&
       tld.length ≥ 2 && tld.all isWordChar
     | [] => false)
  | _ => false

/-- A customer record of the `CUSTOMERS` store. -/
structure Customer where
  full_name : String
  phone : String
  email : String
  address_text : String
  pincode : String
  region_label : String
  preferred_time_slots : List TimeSlot
deriving DecidableEq, Repr

/-- A job record of the `JOBS` store. -/
structure Job where
  request_type : String
  appliance_type : String
  model_if_known : String
  fault_symptoms : List String
  installation_details : List String
  urgency : String
  customer_id : String
deriving DecidableEq, Repr

/-- An appointment record of the `APPOINTMENTS` store, as built by
`confirm_booking`. Keys that later handlers add to the dictionary
(`rescheduled_at`, `cancel_reason`, `cancelled_at`, and the ids written
back after persisting) are `Option` fields defaulting to `none`. -/
structure Appointment where
  customer_id : String
  customer_name : String
  phone : String
  email : String
  address_text : String
  pincode : String
  region_label : String
  appliance_type : String
  fault_symptoms : List String
  technician_id : String
  slot_start : String
  slot_end : String
  status : String
  job_id : String
  created_at : String
  rescheduled_at : Option String := none
  cancel_reason : Option String := none
  cancelled_at : Option String := none
  ticket_id : Option String := none
  crm_id : Option String := none
  calendar_id : Option String := none
deriving DecidableEq, Repr

/-- Dictionary update `m[k] = v`: replace the first binding of `k`, else
append a new one. -/
def mapSet (m : List (String × α)) (k : String) (v : α) :
    List (String × α) :=
  match m with
  | [] => [(k, v)]
  | (k', v') :: rest =>
    if k' = k then (k, v) :: rest else (k', v') :: mapSet rest k v

/-- The module-level mutable stores `CUSTOMERS`, `JOBS`, `APPOINTMENTS`. -/
structure Store where
  customers : List (String × Customer)
  jobs : List (String × Job)
  appointments : List (String × Appointment)
deriving DecidableEq, Repr

/-- The JSON bodies (with their HTTP status) returned by the lifecycle
handlers. -/
inductive Resp where
  | err : Nat → String → Resp
  | okBooking : String → Appointment → Resp
  | okResched : String → Appointment → Resp
  | rejectedSlot : String → TimeSlot → Resp
  | okCancelled : String → Resp
  | okCustomer : Customer → Resp
deriving DecidableEq, Repr

/-- HTTP status code attached to each response shape in src/run.py. -/
def Resp.httpCode : Resp → Nat
  | .err c _ => c
  | _ => 200

/-- Embeds `confirm_booking` (src/run.py lines 469-515). `fresh_ticket`
stands for the ticket id generated in `persist_appointment` and `now` for
`datetime.now(timezone.utc).isoformat()`. Because the Python code persists
the appointment dictionary and then mutates the same (aliased) dictionary
with the ticket/CRM/calendar ids, the stored record carries those ids. -/
def confirm_booking (fresh_ticket now : String) (st : Store)
    (customer_id job_id : Option String) (chosen_slot : Option TimeSlot)
    (technician_id : Option String) : Resp × Store :=
  if !strTruthy customer_id || !strTruthy job_id || chosen_slot.isNone ||
      !strTruthy technician_id then
    (.err 400 "customer_id, job_id, chosen_slot, technician_id required", st)
  else
    let cid := customer_id.getD ""
    let jid := job_id.getD ""
    let slot := chosen_slot.getD ⟨"", ""⟩
    match st.customers.lookup cid, st.jobs.lookup jid with
    | some customer, some job =>
      let appointment : Appointment := {
        customer_id := cid,
        customer_name := customer.full_name,
        phone := customer.phone,
        email := customer.email,
        address_text := customer.address_text,
        pincode := customer.pincode,
        region_label := customer.region_label,
        appliance_type := job.appliance_type,
        fault_symptoms := job.fault_symptoms,
        technician_id := technician_id.getD "",
        slot_start := slot.start,
        slot_end := slot.«end»,
        status := "confirmed",
        job_id := jid,
        created_at := now }
      let appointment := { appointment with
        ticket_id := some fresh_ticket,
        crm_id := some "CRM-PLACEHOLDER",
        calendar_id := some "CAL-PLACEHOLDER" }
      (.okBooking fresh_ticket appointment,
       { st with
         appointments := mapSet st.appointments fresh_ticket appointment })
    | _, _ => (.err 400 "invalid customer_id or job_id", st)

/-- Embeds `reschedule` (src/run.py lines 518-552). `now` stands for
`datetime.now(timezone.utc).isoformat()`. The unreachable indexing of
`availability_slots[0]` on an empty list (an uncaught `IndexError` in
Python, impossible for the seeded directory) is embedded as a 500 error. -/
def reschedule (now : String) (st : Store) (ticket_id : Option String)
    (new_slot : Option TimeSlot) : Resp × Store :=
  if !strTruthy ticket_id || new_slot.isNone then
    (.err 400 "ticket_id and new_slot required", st)
  else
    let tid := ticket_id.getD ""
    let ns := new_slot.getD ⟨"", ""⟩
    match st.appointments.lookup tid with
    | none => (.err 404 "ticket not found", st)
    | some appointment =>
      match TECHNICIANS_DATA.find?
          (fun t => t.id == appointment.technician_id) with
      | none => (.err 404 "technician not found", st)
      | some tech =>
        if tech.availability_slots.any
            (fun ts => ts.start == ns.start && ts.«end» == ns.«end») then
          let appointment := { appointment with
            slot_start := ns.start,
            slot_end := ns.«end»,
            status := "rescheduled",
            rescheduled_at := some now }
          (.okResched tid appointment,
           { st with appointments := mapSet st.appointments tid appointment })
        else
          match tech.availability_slots with
          | alt :: _ => (.rejectedSlot "requested slot not available" alt, st)
          | [] => (.err 500 "IndexError", st)

/-- Embeds `cancel` (src/run.py lines 555-569). `now` stands for
`datetime.now(timezone.utc).isoformat()`; `reason` defaults to `""` via
`payload.get("reason", "")`. -/
def cancel (now : String) (st : Store) (ticket_id : Option String)
    (reason : String) : Resp × Store :=
  if !strTruthy ticket_id then (.err 400 "ticket_id required", st)
  else
    let tid := ticket_id.getD ""
    match st.appointments.lookup tid with
    | none => (.err 404 "ticket not found", st)
    | some appointment =>
      let appointment := { appointment with
        status := "cancelled",
        cancel_reason := some reason,
        cancelled_at := some now }
      (.okCancelled tid,
       { st with appointments := mapSet st.appointments tid appointment })

/-- Embeds `update_contact` (src/run.py lines 572-592). The phone branch
runs first and writes the validated phone into the store (the Python code
mutates the customer dictionary held by `CUSTOMERS` in place) before the
email branch validates the email. -/
def update_contact (st : Store) (customer_id phone email : Option String) :
    Resp × Store :=
  if !strTruthy customer_id then (.err 400 "customer_id required", st)
  else
    let cid := customer_id.getD ""
    match st.customers.lookup cid with
    | none => (.err 404 "customer not found", st)
    | some customer =>
      if strTruthy phone && !validate_phone (phone.getD "") then
        (.err 400 "invalid phone", st)
      else
        let customer1 :=
          if strTruthy phone then { customer with phone := phone.getD "" }
          else customer
        let st1 :=
          if strTruthy phone then
            { st with customers := mapSet st.customers cid customer1 }
          else st
        if strTruthy email && !validate_email (email.getD "") then
          (.err 400 "invalid email", st1)
        else
          let customer2 :=
            if strTruthy email then { customer1 with email := email.getD "" }
            else customer1
          let st2 :=
            if strTruthy email then
              { st1 with customers := mapSet st1.customers cid customer2 }
            else st1
          (.okCustomer customer2, st2)

/-- Convert a run of decimal digits to a natural number (helper for the
concrete timestamp parser used in witnesses). -/
def digitsToNat : List Char → Nat → Nat
  | [], acc => acc
  | c :: rest, acc => digitsToNat rest (acc * 10 + (c.toNat - 48))

/-- A concrete instance of the `parse` parameter (the role `parse_iso`
plays in the source) used to exercise `propose_slots` on explicit inputs:
parses a non-empty all-digit string, fails otherwise. -/
def parseDigits (s : String) : Option Int :=
  if !s.data.isEmpty && s.data.all Char.isDigit then
    some (digitsToNat s.data 0 : Nat)
  else none

section Lemmas

/-- Updating a key and then looking it up yields the written value. -/
theorem lookup_mapSet_self (m : List (String × α)) (k : String) (v : α) :
    (mapSet m k v).lookup k = some v := by
  induction m with
  | nil => simp [mapSet, List.lookup]
  | cons kv rest ih =>
    obtain ⟨k', v'⟩ := kv
    by_cases h : k' = k
    · simp [mapSet, h, List.lookup]
    · have hb : (k == k') = false := beq_eq_false_iff_ne.mpr (Ne.symm h)
      simp [mapSet, h, List.lookup, hb, ih]

/-- Every entry of the static region table carries a non-empty label. -/
theorem regions_cache_labels_ne_empty :
    ∀ r ∈ REGIONS_CACHE, r.region_label ≠ "" := by decide

/-- The success-branch label is never empty. -/
theorem successLabel_ne_empty (p : Place) : successLabel p ≠ "" := by
  simp only [successLabel]
  split
  next r heq =>
    exact regions_cache_labels_ne_empty r (List.mem_of_find?_eq_some heq)
  next =>
    split
    next h => exact h
    next =>
      split
      next h => exact h
      next => decide

/-- The success branch of `lookup_region` never produces an empty label. -/
theorem regionFromPlaces_ne_empty (places : List Place) (s : String)
    (h : regionFromPlaces places = some s) : s ≠ "" := by
  match places with
  | [] => simp [regionFromPlaces] at h
  | p :: rest =>
    simp only [regionFromPlaces, Option.some.injEq] at h
    subst h
    exact successLabel_ne_empty p

/-- The retry loop of `lookup_region` never returns an empty label. -/
theorem lookupAttempts_ne_empty (oracle : Nat → AttemptResult)
    (attempt fuel : Nat) (s : String)
    (h : lookupAttempts oracle attempt fuel = some s) : s ≠ "" := by
  induction fuel generalizing attempt with
  | zero => simp [lookupAttempts] at h
  | succ remaining ih =>
    simp only [lookupAttempts] at h
    split at h
    · split at h
      next _ _ _ _ hr =>
        cases h
        exact regionFromPlaces_ne_empty _ _ hr
      next => exact ih _ h
    · exact ih _ h

/-- When every attempt fails, the retry loop exhausts without returning. -/
theorem lookupAttempts_none_of_fail (oracle : Nat → AttemptResult)
    (hfail : ∀ i, attemptFails (oracle i)) (attempt fuel : Nat) :
    lookupAttempts oracle attempt fuel = none := by
  induction fuel generalizing attempt with
  | zero => simp [lookupAttempts]
  | succ remaining ih =>
    simp only [lookupAttempts]
    split
    next places heq =>
      have hb := hfail attempt
      rw [heq] at hb
      simp only [attemptFails] at hb
      subst hb
      simp only [regionFromPlaces]
      exact ih _
    next => exact ih _

/-- The static fallback label is never empty. -/
theorem static_fallback_ne_empty (pincode : String) :
    static_fallback pincode ≠ "" := by
  simp only [static_fallback]
  rcases hf : REGIONS_CACHE.find? (fun r =>
      listIsPrefix (r.pincode_prefix.data.take 4) pincode.data) with _ | r <;>
    rw [hf]
  · decide
  · exact regions_cache_labels_ne_empty r (List.mem_of_find?_eq_some hf)

/-- The static fallback either names a cached entry whose 4-character
prefix is a prefix of the pincode, or is the sentinel `"Unknown"` because
no entry's prefix matches. -/
theorem static_fallback_cases (pincode : String) :
    (∃ r ∈ REGIONS_CACHE,
       listIsPrefix (r.pincode_prefix.data.take 4) pincode.data = true ∧
       static_fallback pincode = r.region_label) ∨
    (static_fallback pincode = "Unknown" ∧
     ∀ r ∈ REGIONS_CACHE,
       listIsPrefix (r.pincode_prefix.data.take 4) pincode.data = false) := by
  simp only [static_fallback]
  rcases hf : REGIONS_CACHE.find? (fun r =>
      listIsPrefix (r.pincode_prefix.data.take 4) pincode.data) with _ | r <;>
    rw [hf]
  · right
    refine ⟨rfl, fun r hr => ?_⟩
    have := List.find?_eq_none.mp hf r hr
    simpa using this
  · left
    exact ⟨r, List.mem_of_find?_eq_some hf,
      by simpa using List.find?_some hf, rfl⟩

/-- The three-way qualification predicate of the spec: appliance supported,
region served, and the required skill — when truthy — held. -/
def qualifies (appliance : String) (required_skill : Option String)
    (region_label : String) (t : Technician) : Bool :=
  decide (appliance ∈ t.appliances_supported) &&
  decide (region_label ∈ t.regions) &&
  (!strTruthy required_skill || decide (required_skill.getD "" ∈ t.skills))

/-- One matcher step appends the technician exactly when it qualifies. -/
theorem matcherStep_eq (a : String) (rs : Option String) (r : String)
    (ms : List Technician) (t : Technician) :
    matcherStep a rs r ms t =
      ms ++ (if qualifies a rs r t then [t] else []) := by
  simp only [matcherStep, qualifies]
  by_cases h1 : a ∈ t.appliances_supported <;>
    by_cases h2 : r ∈ t.regions <;>
      by_cases h3 : strTruthy rs = true <;>
        by_cases h4 : rs.getD "" ∈ t.skills <;>
          simp [h1, h2, h3, h4]

/-- The matcher loop is the filter by the qualification predicate. -/
theorem foldl_matcherStep (a : String) (rs : Option String) (r : String)
    (l : List Technician) (acc : List Technician) :
    l.foldl (matcherStep a rs r) acc =
      acc ++ l.filter (qualifies a rs r) := by
  induction l generalizing acc with
  | nil => simp
  | cons t ts ih =>
    rw [List.foldl_cons, ih, matcherStep_eq, List.filter_cons]
    by_cases h : qualifies a rs r t <;> simp [h]

end Lemmas

/-- C5: `find_technicians_for` returns exactly the technicians of the
directory that support the appliance, serve the region, and (when a skill
is required — Python-truthy) hold the skill, preserving declaration order;
for appliance "AC", region "Bengaluru Urban" and no required skill it
returns tech_01 then tech_03; and when no technician qualifies the result
is the empty list. -/
theorem C5_matcher_is_ordered_filter :
    (∀ (appliance : String) (required_skill : Option String)
       (region_label : String),
       find_technicians_for appliance required_skill region_label =
         TECHNICIANS_DATA.filter
           (qualifies appliance required_skill region_label)) ∧
    (find_technicians_for "AC" none "Bengaluru Urban").map (·.id) =
      ["tech_01", "tech_03"] ∧
    find_technicians_for "AC" none "Delhi" = [] := by
  refine ⟨fun a rs r => ?_, by decide, by decide⟩
  simpa using foldl_matcherStep a rs r TECHNICIANS_DATA []

/-- C6: `overlap_slot` computes the overlap as
`[max(pref.start, avail.start), min(pref.end, avail.end))`, the pair
overlaps iff the computed start is strictly before the computed end,
identical intervals yield exactly the interval itself, and the disjoint
pair [08:00,09:00) versus [10:00,12:00) (in minutes: 480-540 versus
600-720) yields no overlap. -/
theorem C6_overlap_formula :
    (∀ pref_start pref_end tech_start tech_end : Int,
       ((overlap_slot pref_start pref_end tech_start tech_end).isSome ↔
          max pref_start tech_start < min pref_end tech_end) ∧
       (∀ s e : Int,
          overlap_slot pref_start pref_end tech_start tech_end =
            some (s, e) →
          s = max pref_start tech_start ∧ e = min pref_end tech_end)) ∧
    (∀ s e : Int, s < e → overlap_slot s e s e = some (s, e)) ∧
    overlap_slot 480 540 600 720 = none := by
  refine ⟨fun ps pe ts te => ⟨?_, fun s e h => ?_⟩, fun s e h => ?_,
    by decide⟩
  · simp only [overlap_slot]
    split <;> simp_all
  · simp only [overlap_slot] at h
    split at h <;> simp_all
  · simp [overlap_slot, h]

/-- Witness for C6 at the concrete identical pair [10:00,12:00) (600-720
in minutes). -/
theorem C6_overlap_formula_witness :
    (600 : Int) < 720 ∧ overlap_slot 600 720 600 720 = some (600, 720) :=
  ⟨by decide, C6_overlap_formula.2.1 600 720 (by decide)⟩

/-- A technician input on which the raw-availability fallback of
`propose_slots` fires despite an overlap having been found. -/
def fallbackBugTech : Technician :=
  { id := "t1", name := "T", skills := [], appliances_supported := [],
    regions := [], availability_slots := [⟨"600", "720"⟩, ⟨"900", "960"⟩] }

/-- C2 divergence: with availability [600,720) and [900,960) and the single
preferred interval [630,660), exactly one overlap exists (630-660), yet
`propose_slots` with target 2 returns that overlap FOLLOWED BY the first
raw availability slot verbatim: the trailing loop is not guarded by
"zero overlaps found" (the source's own comment says it should run only
when no overlaps were found). -/
theorem C2_fallback_runs_despite_overlap (fmt : Int → String) :
    propose_slots parseDigits fmt fallbackBugTech [⟨"630", "660"⟩] 2 =
      [⟨fmt 630, fmt 660, "t1"⟩, ⟨"600", "720", "t1"⟩] ∧
    overlap_slot 630 660 600 720 = some (630, 660) ∧
    fallbackBugTech.availability_slots.head? = some ⟨"600", "720"⟩ :=
  ⟨rfl, by decide, by decide⟩

/-- C8 counterexample: for a successful lookup whose state field is
"urban", the table label "Bengaluru Urban" contains the candidate
case-insensitively (the direction the claim asserts also matches), yet the
resolver returns the raw candidate "urban", not the table label: the code
only tests label-inside-candidate containment. -/
theorem C8_containment_direction_counterexample :
    strContains (strLower "Bengaluru Urban") (strLower "urban") = true ∧
    lookup_region (fun _ => .ok [⟨"urban", ""⟩]) "560001" 2 = "urban" ∧
    "urban" ≠ "Bengaluru Urban" := by decide

/-- Modelled from the amended claim: a table entry matches only when its
lowercased label occurs as a substring of the lowercased stripped state or
of the lowercased stripped locality (label-inside-candidate, one direction
only; both fields are tested); the first matching entry's label is
returned, else the stripped state if non-empty, else the stripped locality
if non-empty, else "Unknown". -/
def normalize_candidate (state place_name : String) : String :=
  let st := pyStrip state
  let pn := pyStrip place_name
  match REGIONS_CACHE.find? (fun r =>
      strContains (strLower st) (strLower r.region_label) ||
      strContains (strLower pn) (strLower r.region_label)) with
  | some r => r.region_label
  | none => if st ≠ "" then st else if pn ≠ "" then pn else "Unknown"

/-- C8 amended: when the external lookup succeeds immediately with a place
record, `lookup_region` returns exactly the one-directional normalization
`normalize_candidate` of the record's state and locality fields. -/
theorem C8_success_normalization (state place_name pincode : String)
    (retries : Nat) :
    lookup_region (fun _ => .ok [⟨state, place_name⟩]) pincode retries =
      normalize_candidate state place_name := rfl

/-- C1: the region resolver is total (the embedding returns a label for
every oracle behavior — no exception escapes) and never returns the empty
string; moreover when every external attempt fails it degrades to the
static fallback: the first cached entry whose 4-character pincode prefix
is a prefix of the input, else the literal sentinel "Unknown". -/
theorem C1_resolver_nonempty_and_degrades (oracle : Nat → AttemptResult)
    (pincode : String) (retries : Nat) :
    lookup_region oracle pincode retries ≠ "" ∧
    ((∀ i, attemptFails (oracle i)) →
      lookup_region oracle pincode retries = static_fallback pincode ∧
      ((∃ r ∈ REGIONS_CACHE,
          listIsPrefix (r.pincode_prefix.data.take 4) pincode.data = true ∧
          static_fallback pincode = r.region_label) ∨
       (static_fallback pincode = "Unknown" ∧
        ∀ r ∈ REGIONS_CACHE,
          listIsPrefix (r.pincode_prefix.data.take 4) pincode.data =
            false))) := by
  constructor
  · simp only [lookup_region]
    split
    next s hs => exact lookupAttempts_ne_empty _ _ _ _ hs
    next => exact static_fallback_ne_empty pincode
  · intro hfail
    have hnone := lookupAttempts_none_of_fail oracle hfail 0 (retries + 1)
    have heq : lookup_region oracle pincode retries =
        static_fallback pincode := by
      simp [lookup_region, hnone]
    exact ⟨heq, static_fallback_cases pincode⟩

/-- Witness for C1: with every attempt raising, pincode "560001" resolves
to the static fallback, which is non-empty. -/
theorem C1_resolver_witness :
    lookup_region (fun _ => .exn) "560001" 2 ≠ "" ∧
    lookup_region (fun _ => .exn) "560001" 2 = static_fallback "560001" := by
  have h := C1_resolver_nonempty_and_degrades (fun _ => .exn) "560001" 2
  exact ⟨h.1, (h.2 (fun _ => trivial)).1⟩

section ProposeInvariants

/-- Every proposal the inner overlap loop adds carries the technician id. -/
theorem proposeInner_tid (parse : String → Option Int) (fmt : Int → String)
    (tid : String) (ps pe : Int) (tslots : List TimeSlot)
    (proposals : List Proposal) (maxp : Nat)
    (h : ∀ p ∈ proposals, p.technician_id = tid) :
    ∀ p ∈ (proposeInner parse fmt tid ps pe tslots proposals maxp).1,
      p.technician_id = tid := by
  induction tslots generalizing proposals with
  | nil => simpa [proposeInner] using h
  | cons ts rest ih =>
    simp only [proposeInner]
    split
    · split
      · split
        · intro p hp
          rcases List.mem_append.mp hp with h1 | h2
          · exact h p h1
          · simp only [List.mem_singleton] at h2
            subst h2
            rfl
        · apply ih
          intro p hp
          rcases List.mem_append.mp hp with h1 | h2
          · exact h p h1
          · simp only [List.mem_singleton] at h2
            subst h2
            rfl
      · exact ih _ h
    · exact ih _ h

/-- Entering the inner loop below the cap, the result stays within the cap,
and strictly below it when the loop did not return early. -/
theorem proposeInner_len (parse : String → Option Int) (fmt : Int → String)
    (tid : String) (ps pe : Int) (tslots : List TimeSlot)
    (proposals : List Proposal) (maxp : Nat)
    (h : proposals.length < maxp) :
    (proposeInner parse fmt tid ps pe tslots proposals maxp).1.length ≤
        maxp ∧
    ((proposeInner parse fmt tid ps pe tslots proposals maxp).2 = false →
      (proposeInner parse fmt tid ps pe tslots proposals maxp).1.length <
        maxp) := by
  induction tslots generalizing proposals with
  | nil =>
    simp only [proposeInner]
    exact ⟨Nat.le_of_lt h, fun _ => h⟩
  | cons ts rest ih =>
    simp only [proposeInner]
    split
    · split
      · split
        next hle =>
          refine ⟨?_, fun hf => by simp at hf⟩
          simp only [List.length_append, List.length_singleton]
          omega
        next hlt =>
          apply ih
          simp only [List.length_append, List.length_singleton] at hlt ⊢
          omega
      · exact ih _ h
    · exact ih _ h

/-- Every proposal the outer preference loop adds carries the technician
id. -/
theorem proposeOuter_tid (parse : String → Option Int) (fmt : Int → String)
    (tid : String) (prefs tslots : List TimeSlot)
    (proposals : List Proposal) (maxp : Nat)
    (h : ∀ p ∈ proposals, p.technician_id = tid) :
    ∀ p ∈ (proposeOuter parse fmt tid prefs tslots proposals maxp).1,
      p.technician_id = tid := by
  induction prefs generalizing proposals with
  | nil => simpa [proposeOuter] using h
  | cons pref rest ih =>
    simp only [proposeOuter]
    split
    next ps1 pe1 _ _ =>
      split
      next out heq =>
        have := proposeInner_tid parse fmt tid ps1 pe1 tslots proposals
          maxp h
        rw [heq] at this
        exact this
      next out heq =>
        apply ih
        have := proposeInner_tid parse fmt tid ps1 pe1 tslots proposals
          maxp h
        rw [heq] at this
        exact this
    next => exact ih _ h

/-- Entering the outer loop below the cap, the result stays within the cap,
and strictly below it when no early return happened. -/
theorem proposeOuter_len (parse : String → Option Int) (fmt : Int → String)
    (tid : String) (prefs tslots : List TimeSlot)
    (proposals : List Proposal) (maxp : Nat)
    (h : proposals.length < maxp) :
    (proposeOuter parse fmt tid prefs tslots proposals maxp).1.length ≤
        maxp ∧
    ((proposeOuter parse fmt tid prefs tslots proposals maxp).2 = false →
      (proposeOuter parse fmt tid prefs tslots proposals maxp).1.length <
        maxp) := by
  induction prefs generalizing proposals with
  | nil =>
    simp only [proposeOuter]
    exact ⟨Nat.le_of_lt h, fun _ => h⟩
  | cons pref rest ih =>
    simp only [proposeOuter]
    split
    next ps1 pe1 _ _ =>
      have hin := proposeInner_len parse fmt tid ps1 pe1 tslots proposals
        maxp h
      split
      next out heq =>
        rw [heq] at hin
        exact ⟨hin.1, fun hf => by simp at hf⟩
      next out heq =>
        rw [heq] at hin
        exact ih _ (hin.2 rfl)
    next => exact ih _ h

/-- Every proposal the raw-availability loop adds carries the technician
id. -/
theorem proposeFallback_tid (tid : String) (tslots : List TimeSlot)
    (proposals : List Proposal) (maxp : Nat)
    (h : ∀ p ∈ proposals, p.technician_id = tid) :
    ∀ p ∈ proposeFallback tid tslots proposals maxp,
      p.technician_id = tid := by
  induction tslots generalizing proposals with
  | nil => simpa [proposeFallback] using h
  | cons ts rest ih =>
    simp only [proposeFallback]
    split
    · intro p hp
      rcases List.mem_append.mp hp with h1 | h2
      · exact h p h1
      · simp only [List.mem_singleton] at h2
        subst h2
        rfl
    · apply ih
      intro p hp
      rcases List.mem_append.mp hp with h1 | h2
      · exact h p h1
      · simp only [List.mem_singleton] at h2
        subst h2
        rfl

/-- Entering the raw-availability loop below the cap, the result stays
within the cap. -/
theorem proposeFallback_len (tid : String) (tslots : List TimeSlot)
    (proposals : List Proposal) (maxp : Nat)
    (h : proposals.length < maxp) :
    (proposeFallback tid tslots proposals maxp).length ≤ maxp := by
  induction tslots generalizing proposals with
  | nil =>
    simp only [proposeFallback]
    exact Nat.le_of_lt h
  | cons ts rest ih =>
    simp only [proposeFallback]
    split
    next hle =>
      simp only [List.length_append, List.length_singleton]
      omega
    next hlt =>
      apply ih
      simp only [List.length_append, List.length_singleton] at hlt ⊢
      omega

end ProposeInvariants

/-- C9: for a positive target count, every proposal returned by
`propose_slots` — on the overlap path and on the raw-availability path
alike — carries the technician's id, and the returned list never exceeds
`max_proposals` entries. -/
theorem C9_proposals_tagged_and_capped (parse : String → Option Int)
    (fmt : Int → String) (tech : Technician)
    (customer_pref_slots : List TimeSlot) (max_proposals : Nat)
    (hpos : 0 < max_proposals) :
    (∀ p ∈ propose_slots parse fmt tech customer_pref_slots max_proposals,
       p.technician_id = tech.id) ∧
    (propose_slots parse fmt tech customer_pref_slots
        max_proposals).length ≤ max_proposals := by
  have h0 : ([] : List Proposal).length < max_proposals := by
    simpa using hpos
  have htid := proposeOuter_tid parse fmt tech.id customer_pref_slots
    tech.availability_slots [] max_proposals (by simp)
  have hlen := proposeOuter_len parse fmt tech.id customer_pref_slots
    tech.availability_slots [] max_proposals h0
  simp only [propose_slots]
  split
  next out heq =>
    rw [heq] at htid hlen
    exact ⟨htid, hlen.1⟩
  next out heq =>
    rw [heq] at htid hlen
    refine ⟨proposeFallback_tid _ _ _ _ htid, ?_⟩
    exact proposeFallback_len _ _ _ _ (hlen.2 rfl)

/-- Witness for C9 at a concrete technician with one availability slot and
one overlapping preference. -/
theorem C9_proposals_witness :
    0 < 2 ∧
    ((∀ p ∈ propose_slots parseDigits (fun _ => "")
         ⟨"t9", "T9", [], [], [], [⟨"100", "200"⟩]⟩ [⟨"100", "150"⟩] 2,
        p.technician_id = "t9") ∧
     (propose_slots parseDigits (fun _ => "")
         ⟨"t9", "T9", [], [], [], [⟨"100", "200"⟩]⟩ [⟨"100", "150"⟩]
         2).length ≤ 2) :=
  ⟨by decide,
   C9_proposals_tagged_and_capped parseDigits (fun _ => "")
     ⟨"t9", "T9", [], [], [], [⟨"100", "200"⟩]⟩ [⟨"100", "150"⟩] 2
     (by decide)⟩

/-- C3 counterexample: on an empty store, confirming with unknown customer
and job identifiers yields an HTTP 400 response ("invalid customer_id or
job_id"), not the claimed 404; no appointment is created. -/
theorem C3_unknown_ids_give_400_not_404 :
    (confirm_booking "TK-1" "t0" ⟨[], [], []⟩ (some "CUST-404")
        (some "JOB-404") (some ⟨"s", "e"⟩) (some "tech_01")).1 =
      .err 400 "invalid customer_id or job_id" ∧
    (confirm_booking "TK-1" "t0" ⟨[], [], []⟩ (some "CUST-404")
        (some "JOB-404") (some ⟨"s", "e"⟩) (some "tech_01")).1.httpCode ≠
      404 ∧
    (confirm_booking "TK-1" "t0" ⟨[], [], []⟩ (some "CUST-404")
        (some "JOB-404") (some ⟨"s", "e"⟩) (some "tech_01")).2 =
      ⟨[], [], []⟩ := by decide

/-- C3 amended: `confirm_booking` fails with a 400-status error (message
"invalid customer_id or job_id" — not a 404 NotFound) whenever the given
customer or job identifier is unknown to the store, and no appointment is
created: the store is returned unchanged. -/
theorem C3_unknown_ids_rejected (fresh_ticket now : String) (st : Store)
    (customer_id job_id : Option String) (chosen_slot : Option TimeSlot)
    (technician_id : Option String)
    (hc : strTruthy customer_id = true) (hj : strTruthy job_id = true)
    (hs : chosen_slot.isSome = true) (ht : strTruthy technician_id = true)
    (hmiss : st.customers.lookup (customer_id.getD "") = none ∨
             st.jobs.lookup (job_id.getD "") = none) :
    confirm_booking fresh_ticket now st customer_id job_id chosen_slot
        technician_id =
      (.err 400 "invalid customer_id or job_id", st) := by
  have hn : chosen_slot.isNone = false := by
    cases chosen_slot with
    | none => simp at hs
    | some s => rfl
  simp only [confirm_booking, hc, hj, ht, hn, Bool.not_true, Bool.or_false,
    Bool.false_or, Bool.or_self, Bool.false_eq_true, if_false]
  split
  next c j hcl hjl =>
    exfalso
    rcases hmiss with hm | hm
    · rw [hm] at hcl
      exact Option.noConfusion hcl
    · rw [hm] at hjl
      exact Option.noConfusion hjl
  next => rfl

/-- Witness for the amended C3 on an empty store. -/
theorem C3_unknown_ids_rejected_witness :
    confirm_booking "TK-2" "t0" ⟨[], [], []⟩ (some "CUST-405")
        (some "JOB-405") (some ⟨"s", "e"⟩) (some "tech_02") =
      (.err 400 "invalid customer_id or job_id", ⟨[], [], []⟩) :=
  C3_unknown_ids_rejected "TK-2" "t0" ⟨[], [], []⟩ (some "CUST-405")
    (some "JOB-405") (some ⟨"s", "e"⟩) (some "tech_02") (by decide)
    (by decide) (by decide) (by decide) (Or.inl (by decide))

/-- A cancelled appointment assigned to tech_01, stored under ticket
"TK-1": the state from which the claimed terminality of `cancelled` is
probed. -/
def cancelledAppt : Appointment := {
  customer_id := "CUST-1", customer_name := "A", phone := "9876543210",
  email := "", address_text := "", pincode := "560001",
  region_label := "Bengaluru Urban", appliance_type := "AC",
  fault_symptoms := [], technician_id := "tech_01", slot_start := "s0",
  slot_end := "e0", status := "cancelled", job_id := "JOB-1",
  created_at := "t0" }

/-- The store holding only `cancelledAppt` under ticket "TK-1". -/
def cancelledStore : Store := ⟨[], [], [("TK-1", cancelledAppt)]⟩

/-- C4 counterexample: `reschedule` never inspects the status, so a
cancelled appointment whose requested slot exactly matches the assigned
technician's availability transitions to status "rescheduled" — a
transition out of `cancelled`. -/
theorem C4_reschedule_escapes_cancelled :
    cancelledAppt.status = "cancelled" ∧
    ((((reschedule "t1" cancelledStore (some "TK-1")
        (some ⟨"2025-09-20T10:00:00+05:30",
               "2025-09-20T12:00:00+05:30"⟩)).2).appointments.lookup
        "TK-1").map (·.status)) = some "rescheduled" := by decide

/-- C4 amended: from a cancelled appointment, `cancel` always leaves the
status `cancelled`; `reschedule` whose assigned technician is missing from
the directory fails with the 404 "technician not found" and leaves the
store — hence the status — unchanged; a rejected `reschedule` (no exact
availability match) leaves the store unchanged, so the status stays
`cancelled`; the only escape is a reschedule whose slot exactly matches
the technician's availability, which sets the status to `rescheduled`. -/
theorem C4_cancelled_escapes_only_by_reschedule (now reason : String)
    (st : Store) (tid : String) (appt : Appointment) (ns : TimeSlot)
    (htid : tid ≠ "")
    (hlook : st.appointments.lookup tid = some appt)
    (hstat : appt.status = "cancelled") :
    ((((cancel now st (some tid) reason).2).appointments.lookup tid).map
        (·.status)) = some "cancelled" ∧
    (TECHNICIANS_DATA.find? (fun t => t.id == appt.technician_id) = none →
      reschedule now st (some tid) (some ns) =
        (.err 404 "technician not found", st) ∧
      ((((reschedule now st (some tid) (some ns)).2).appointments.lookup
          tid).map (·.status)) = some "cancelled") ∧
    (∀ tech,
      TECHNICIANS_DATA.find? (fun t => t.id == appt.technician_id) =
        some tech →
      tech.availability_slots.any
          (fun ts => ts.start == ns.start && ts.«end» == ns.«end») =
        false →
      (reschedule now st (some tid) (some ns)).2 = st ∧
      ((((reschedule now st (some tid) (some ns)).2).appointments.lookup
          tid).map (·.status)) = some "cancelled") ∧
    (∀ tech,
      TECHNICIANS_DATA.find? (fun t => t.id == appt.technician_id) =
        some tech →
      tech.availability_slots.any
          (fun ts => ts.start == ns.start && ts.«end» == ns.«end») =
        true →
      ((((reschedule now st (some tid) (some ns)).2).appointments.lookup
          tid).map (·.status)) = some "rescheduled") := by
  have htr : strTruthy (some tid) = true := by simp [strTruthy, htid]
  refine ⟨?_, ?_, ?_, ?_⟩
  · simp [cancel, htr, hlook, lookup_mapSet_self]
  · intro htech
    have hres : reschedule now st (some tid) (some ns) =
        (.err 404 "technician not found", st) := by
      simp only [reschedule, htr, Bool.not_true, Option.isNone_some,
        Bool.or_self, Bool.or_false, Bool.false_eq_true, if_false,
        Option.getD_some, hlook, htech]
    refine ⟨hres, ?_⟩
    rw [hres]
    simp [hlook, hstat]
  · intro tech htech hm
    have hres : (reschedule now st (some tid) (some ns)).2 = st := by
      simp only [reschedule, htr, Bool.not_true, Option.isNone_some,
        Bool.or_self, Bool.or_false, Bool.false_eq_true, if_false,
        Option.getD_some, hlook, htech, hm]
      rcases hav : tech.availability_slots with _ | ⟨alt, rest⟩ <;>
        simp [hav]
    refine ⟨hres, ?_⟩
    rw [hres]
    simp [hlook, hstat]
  · intro tech htech hm
    simp only [reschedule, htr, Bool.not_true, Option.isNone_some,
      Bool.or_self, Bool.or_false, Bool.false_eq_true, if_false,
      Option.getD_some, hlook, htech, hm, if_true]
    simp [lookup_mapSet_self]

/-- Witness for the amended C4 at the concrete cancelled store: cancel
keeps the status cancelled, a reschedule to a foreign slot leaves the
store unchanged (status still cancelled), and a reschedule to tech_01's
first availability slot escapes to rescheduled. -/
theorem C4_cancelled_escapes_witness :
    ((((cancel "t1" cancelledStore (some "TK-1") "").2).appointments.lookup
        "TK-1").map (·.status)) = some "cancelled" ∧
    (reschedule "t1" cancelledStore (some "TK-1") (some ⟨"x", "y"⟩)).2 =
      cancelledStore ∧
    ((((reschedule "t1" cancelledStore (some "TK-1")
        (some ⟨"2025-09-20T10:00:00+05:30",
               "2025-09-20T12:00:00+05:30"⟩)).2).appointments.lookup
        "TK-1").map (·.status)) = some "rescheduled" := by
  have h1 := C4_cancelled_escapes_only_by_reschedule "t1" "" cancelledStore
    "TK-1" cancelledAppt ⟨"x", "y"⟩ (by decide) (by decide) (by decide)
  have h2 := C4_cancelled_escapes_only_by_reschedule "t1" "" cancelledStore
    "TK-1" cancelledAppt
    ⟨"2025-09-20T10:00:00+05:30", "2025-09-20T12:00:00+05:30"⟩
    (by decide) (by decide) (by decide)
  refine ⟨h1.1, ?_, ?_⟩
  · exact (h1.2.2.1
      { id := "tech_01", name := "Asha K",
        skills := ["wm_vibration", "ac_leak"],
        appliances_supported := ["WashingMachine", "AC"],
        regions := ["Bengaluru Urban", "Central"],
        availability_slots := [
          ⟨"2025-09-20T10:00:00+05:30", "2025-09-20T12:00:00+05:30"⟩,
          ⟨"2025-09-20T15:00:00+05:30", "2025-09-20T16:00:00+05:30"⟩] }
      (by decide) (by decide)).1
  · exact h2.2.2.2
      { id := "tech_01", name := "Asha K",
        skills := ["wm_vibration", "ac_leak"],
        appliances_supported := ["WashingMachine", "AC"],
        regions := ["Bengaluru Urban", "Central"],
        availability_slots := [
          ⟨"2025-09-20T10:00:00+05:30", "2025-09-20T12:00:00+05:30"⟩,
          ⟨"2025-09-20T15:00:00+05:30", "2025-09-20T16:00:00+05:30"⟩] }
      (by decide) (by decide)

/-- Every technician of the seeded directory declares at least one
availability slot. -/
theorem technicians_have_availability :
    ∀ t ∈ TECHNICIANS_DATA, t.availability_slots ≠ [] := by decide

/-- C7: when the requested new slot matches none of the assigned
technician's availability intervals by exact start-and-end equality,
`reschedule` returns the non-error rejection carrying the technician's
first declared availability interval, and the store — hence every field of
the appointment — is unchanged. -/
theorem C7_reschedule_rejection_no_mutation (now : String) (st : Store)
    (tid : String) (appt : Appointment) (tech : Technician) (ns : TimeSlot)
    (htid : tid ≠ "")
    (hlook : st.appointments.lookup tid = some appt)
    (htech : TECHNICIANS_DATA.find? (fun t => t.id == appt.technician_id) =
      some tech)
    (hnomatch : tech.availability_slots.any
        (fun ts => ts.start == ns.start && ts.«end» == ns.«end») = false) :
    reschedule now st (some tid) (some ns) =
      (.rejectedSlot "requested slot not available"
        (tech.availability_slots.headD ⟨"", ""⟩), st) ∧
    tech.availability_slots ≠ [] := by
  have hne := technicians_have_availability tech
    (List.mem_of_find?_eq_some htech)
  have htr : strTruthy (some tid) = true := by simp [strTruthy, htid]
  refine ⟨?_, hne⟩
  rcases hav : tech.availability_slots with _ | ⟨alt, rest⟩
  · exact absurd hav hne
  · rw [hav] at hnomatch
    simp only [reschedule, htr, Bool.not_true, Option.isNone_some,
      Bool.or_self, Bool.or_false, Bool.false_eq_true, if_false,
      Option.getD_some, hlook, htech, hav, hnomatch, List.headD_cons]

/-- Witness for C7: rescheduling the stored appointment to a slot foreign
to tech_01's availability is rejected with tech_01's first slot and the
store is untouched. -/
theorem C7_reschedule_rejection_witness :
    reschedule "t1" cancelledStore (some "TK-1") (some ⟨"x", "y"⟩) =
      (.rejectedSlot "requested slot not available"
        ⟨"2025-09-20T10:00:00+05:30", "2025-09-20T12:00:00+05:30"⟩,
       cancelledStore) :=
  (C7_reschedule_rejection_no_mutation "t1" cancelledStore "TK-1"
    cancelledAppt
    { id := "tech_01", name := "Asha K",
      skills := ["wm_vibration", "ac_leak"],
      appliances_supported := ["WashingMachine", "AC"],
      regions := ["Bengaluru Urban", "Central"],
      availability_slots := [
        ⟨"2025-09-20T10:00:00+05:30", "2025-09-20T12:00:00+05:30"⟩,
        ⟨"2025-09-20T15:00:00+05:30", "2025-09-20T16:00:00+05:30"⟩] }
    ⟨"x", "y"⟩ (by decide) (by decide) (by decide) (by decide)).1

/-- C10: for a known customer, `update_contact` with a valid truthy phone
and an invalid truthy email returns the "invalid email" 400 error, yet the
store it returns already carries the new phone: the phone write precedes
the email check, so the operation is not atomic on validation failure. -/
theorem C10_update_contact_not_atomic (st : Store) (cid : String)
    (customer : Customer) (p e : String)
    (hcid : cid ≠ "")
    (hlook : st.customers.lookup cid = some customer)
    (hp : p ≠ "") (hpv : validate_phone p = true)
    (he : e ≠ "") (hev : validate_email e = false) :
    update_contact st (some cid) (some p) (some e) =
      (.err 400 "invalid email",
       { st with
         customers :=
           mapSet st.customers cid { customer with phone := p } }) ∧
    (mapSet st.customers cid { customer with phone := p }).lookup cid =
      some { customer with phone := p } := by
  refine ⟨?_, lookup_mapSet_self _ _ _⟩
  simp [update_contact, strTruthy, hcid, hlook, hp, hpv, he, hev]

/-- A customer record used to exercise the non-atomic contact update. -/
def contactCustomer : Customer := {
  full_name := "A", phone := "9123456780", email := "a@b.co",
  address_text := "", pincode := "560001",
  region_label := "Bengaluru Urban", preferred_time_slots := [] }

/-- The store holding only `contactCustomer` under id "CUST-1". -/
def contactStore : Store := ⟨[("CUST-1", contactCustomer)], [], []⟩

/-- Witness for C10: phone "9876543210" is valid, email "bad" is invalid,
and the error response is returned over a store already holding the new
phone. -/
theorem C10_update_contact_witness :
    update_contact contactStore (some "CUST-1") (some "9876543210")
        (some "bad") =
      (.err 400 "invalid email",
       { contactStore with
         customers :=
           mapSet contactStore.customers "CUST-1"
             { contactCustomer with phone := "9876543210" } }) :=
  (C10_update_contact_not_atomic contactStore "CUST-1" contactCustomer
    "9876543210" "bad" (by decide) (by decide) (by decide) (by decide)
    (by decide) (by decide)).1

end Run
